import Mathlib

/-!
Verification of the ministry-of-truth HTTP proxy backend.

The repository contains two variants of the same proxy:
* `main.go` — a standalone server (gorilla mux router, CORS middleware,
  startup configuration loading) — embedded in namespace `Main`;
* an unnamed serverless handler file (`package handler`) with a single
  `Handler` entry point that sets CORS headers, loads configuration per
  request, and dispatches on the path — embedded in namespace `Api`.

The embedding is shallow: JSON decoding of a request body and of an
upstream body is modelled by the decoded value (`none` / `malformed`
standing for a decode error), upstream HTTP calls are modelled by an
oracle function passed to the handler, and each handler returns, next to
its HTTP response, the list of upstream requests it performed (so that
"no upstream call is attempted" is the statement that this list is
empty).  Logging (`log.Printf`) has no observable effect and is elided.
-/

namespace MinistryOfTruth

/-- A process environment: `os.Getenv` returns `""` for an unset variable. -/
def Env := List (String × String)

def osGetenv (env : Env) (k : String) : String :=
  (((env.find? (fun p => p.1 = k)).map Prod.snd).getD "")

/-- `type Source struct { ID, Name string }` -/
structure Source where
  ID : String
  Name : String
deriving DecidableEq

/-- `type Article struct { ... }` (all eight fields of the Go struct). -/
structure Article where
  Source : Source
  Author : String
  Title : String
  Description : String
  URL : String
  URLToImage : String
  PublishedAt : String
  Content : String
deriving DecidableEq

/-- `type NewsResponse struct { Status string; TotalResults int; Articles []Article }` -/
structure NewsResponse where
  Status : String
  TotalResults : Int
  Articles : List Article
deriving DecidableEq

/-- `type Message struct { Role, Content string }` -/
structure Message where
  Role : String
  Content : String
deriving DecidableEq

/-- `type OpenAIRequest struct { Model string; Messages []Message; MaxTokens int; Temperature float64 }`.
The only temperature ever used is the literal `0.9`, modelled as the
rational it denotes; no arithmetic is performed on it. -/
structure OpenAIRequest where
  Model : String
  Messages : List Message
  MaxTokens : Int
  Temperature : ℚ
deriving DecidableEq

/-- `type Choice struct { Message Message }` -/
structure Choice where
  Message : Message
deriving DecidableEq

/-- `type OpenAIResponse struct { Choices []Choice }` -/
structure OpenAIResponse where
  Choices : List Choice
deriving DecidableEq

/-- Body of an inbound request, as seen by `json.NewDecoder(r.Body).Decode`
into `struct { Title, Description string }`: either a decode error
(missing body or malformed JSON) or the decoded field values (absent JSON
fields decode to the zero value `""`, carried by the decoded values). -/
inductive ReqBody where
  | malformed
  | transformData (Title Description : String)
deriving DecidableEq

/-- An inbound HTTP request: method and path strings (Go compares
`r.Method` against string literals), the parsed URL query, and the body. -/
structure Request where
  method : String
  path : String
  query : List (String × String)
  body : ReqBody
deriving DecidableEq

/-- `r.URL.Query().Get(k)`: first value for `k`, `""` when absent. -/
def queryGet (q : List (String × String)) (k : String) : String :=
  (((q.find? (fun p => p.1 = k)).map Prod.snd).getD "")

/-- Body of an HTTP response produced by a handler.  `json.NewEncoder(w).Encode`
of a `NewsResponse` is modelled by `newsJSON`, of a `map[string]string` by
`objJSON` (field list), and `http.Error` text bodies by `text`. -/
inductive ResponseBody where
  | empty
  | text (s : String)
  | newsJSON (n : NewsResponse)
  | objJSON (fields : List (String × String))
deriving DecidableEq

structure Response where
  status : Nat
  headers : List (String × String)
  body : ResponseBody
deriving DecidableEq

/-- Result of one upstream NewsAPI call (`http.Get`): transport failure, or
a response with a status code and a body that either unmarshals into a
`NewsResponse` (`some n`) or fails to parse (`none`). -/
inductive NewsUpstreamResult where
  | transportError (msg : String)
  | response (status : Nat) (body : Option NewsResponse)

/-- Result of one upstream OpenAI call (`client.Do`). -/
inductive OpenAIUpstreamResult where
  | transportError (msg : String)
  | response (status : Nat) (body : Option OpenAIResponse)

/-- The three headers set by `corsMiddleware` (main.go) and `setCORS` (handler file). -/
def corsHeaders : List (String × String) :=
  [("Access-Control-Allow-Origin", "*"),
   ("Access-Control-Allow-Methods", "GET, POST, PUT, DELETE, OPTIONS"),
   ("Access-Control-Allow-Headers", "Content-Type, Authorization")]

/-- `w.Header().Set("Content-Type", "application/json")` at the top of a handler. -/
def ctJSON : List (String × String) := [("Content-Type", "application/json")]

/-- `http.Error` replaces the Content-Type header with text/plain. -/
def ctText : List (String × String) := [("Content-Type", "text/plain; charset=utf-8")]

/-- The fixed system prompt of the transform handlers (identical in both files). -/
def systemPrompt : String :=
  "You are the Ministry of Truth from George Orwell\x27s 1984. Transform news headlines and descriptions into dystopian propaganda using doublespeak, references to Big Brother, the Party, thoughtcrime, etc. Keep responses under 200 characters."

/-- The user message content: `fmt.Sprintf("Transform this news: Title: %s, Description: %s", title, description)`. -/
def userContent (title description : String) : String :=
  "Transform this news: Title: " ++ title ++ ", Description: " ++ description

/-- The `OpenAIRequest` value built (identically) by `transformNews` (main.go)
and `transformContent` (handler file). -/
def mkOpenAIRequest (title description : String) : OpenAIRequest :=
  { Model := "gpt-3.5-turbo"
  , Messages :=
      [ { Role := "system", Content := systemPrompt }
      , { Role := "user", Content := userContent title description } ]
  , MaxTokens := 200
  , Temperature := (9 : ℚ) / 10 }

namespace Main

/-- `type Config struct { NewsAPIKey, OpenAIAPIKey, Port string }` (main.go). -/
structure Config where
  NewsAPIKey : String
  OpenAIAPIKey : String
  Port : String
deriving DecidableEq

/-- `loadConfig` (main.go): both keys required, port defaults to 8080. -/
def loadConfig (env : Env) : Except String Config :=
  let newsAPIKey := osGetenv env "NEWS_API_KEY"
  if newsAPIKey = "" then
    .error "NEWS_API_KEY environment variable is required"
  else
    let openAIAPIKey := osGetenv env "OPENAI_API_KEY"
    if openAIAPIKey = "" then
      .error "OPENAI_API_KEY environment variable is required"
    else
      let port := osGetenv env "PORT"
      let port := if port = "" then "8080" else port
      .ok { NewsAPIKey := newsAPIKey, OpenAIAPIKey := openAIAPIKey, Port := port }

/-- The upstream URL built by `fetchNews` (main.go line 112):
`fmt.Sprintf("https://newsapi.org/v2%s&apiKey=%s", endpoint, config.NewsAPIKey)`. -/
def newsURL (endpoint : String) (config : Config) : String :=
  "https://newsapi.org/v2" ++ endpoint ++ "&apiKey=" ++ config.NewsAPIKey

/-- `fetchNews` (main.go): one GET to the upstream; transport error, non-200
status and unparseable body each become an `error`; a 200 with a parseable
body yields the parsed `NewsResponse`.  The second component records the
upstream URLs requested. -/
def fetchNews (endpoint : String) (config : Config)
    (upstream : String → NewsUpstreamResult) :
    Except String NewsResponse × List String :=
  let url := newsURL endpoint config
  match upstream url with
  | .transportError msg => (.error ("failed to fetch news: " ++ msg), [url])
  | .response status body =>
      if status = 200 then
        match body with
        | none => (.error "failed to parse JSON response", [url])
        | some n => (.ok n, [url])
      else
        (.error ("NewsAPI returned status " ++ toString status), [url])

/-- `getTopHeadlines` (main.go): optional category, then `fetchNews`. -/
def getTopHeadlines (r : Request) (config : Config)
    (upstream : String → NewsUpstreamResult) : Response × List String :=
  let category := queryGet r.query "category"
  let endpoint :=
    if category = "" then "/top-headlines?country=us"
    else "/top-headlines?country=us&category=" ++ category
  match fetchNews endpoint config upstream with
  | (.error e, calls) =>
      ({ status := 500, headers := ctText, body := .text ("Error fetching news: " ++ e) }, calls)
  | (.ok n, calls) =>
      ({ status := 200, headers := ctJSON, body := .newsJSON n }, calls)

/-- `searchNews` (main.go): missing or empty `q` is rejected with 400 before
any upstream call; otherwise `fetchNews` on `/everything?q=<q>`. -/
def searchNews (r : Request) (config : Config)
    (upstream : String → NewsUpstreamResult) : Response × List String :=
  let query := queryGet r.query "q"
  if query = "" then
    ({ status := 400, headers := ctText, body := .text "Query parameter \x27q\x27 is required" }, [])
  else
    let endpoint := "/everything?q=" ++ query
    match fetchNews endpoint config upstream with
    | (.error e, calls) =>
        ({ status := 500, headers := ctText, body := .text ("Error searching news: " ++ e) }, calls)
    | (.ok n, calls) =>
        ({ status := 200, headers := ctJSON, body := .newsJSON n }, calls)

/-- `transformNews` (main.go): POST only; decode body; build the fixed
OpenAI request; POST it; map every upstream failure to 500; on success
respond with `map[string]string{"transformedContent": ...}`.  (The
`json.Marshal` and `http.NewRequest` error branches cannot fire for this
fixed request shape and are elided.)  The second component records the
upstream completion requests performed. -/
def transformNews (r : Request) (config : Config)
    (upstream : OpenAIRequest → OpenAIUpstreamResult) :
    Response × List OpenAIRequest :=
  if r.method = "POST" then
    match r.body with
    | .malformed =>
        ({ status := 400, headers := ctText, body := .text "Invalid JSON" }, [])
    | .transformData title description =>
        let openAIRequest := mkOpenAIRequest title description
        match upstream openAIRequest with
        | .transportError _ =>
            ({ status := 500, headers := ctText, body := .text "Error making request to OpenAI" },
             [openAIRequest])
        | .response status body =>
            if status = 200 then
              match body with
              | none =>
                  ({ status := 500, headers := ctText, body := .text "Error parsing OpenAI response" },
                   [openAIRequest])
              | some resp =>
                  match resp.Choices with
                  | [] =>
                      ({ status := 500, headers := ctText, body := .text "No response from OpenAI" },
                       [openAIRequest])
                  | c :: _ =>
                      ({ status := 200, headers := ctJSON,
                         body := .objJSON [("transformedContent", c.Message.Content)] },
                       [openAIRequest])
            else
              ({ status := 500, headers := ctText, body := .text "Error from OpenAI API" },
               [openAIRequest])
  else
    ({ status := 405, headers := ctText, body := .text "Method not allowed" }, [])

/-- `healthCheck` (main.go): fixed JSON object, implicit 200, no upstream
call (`now` is the formatted `time.Now()`). -/
def healthCheck (now : String) : Response :=
  { status := 200, headers := ctJSON,
    body := .objJSON
      [("status", "healthy"), ("service", "Ministry of Truth Backend"), ("time", now)] }

/-- Outcome of `main` (main.go): `log.Fatalf` on a configuration error
exits the process before the server ever listens. -/
inductive StartResult where
  | exited (msg : String)
  | listening (config : Config)
deriving DecidableEq

def mainStartup (env : Env) : StartResult :=
  match loadConfig env with
  | .error e => .exited ("Failed to load configuration: " ++ e)
  | .ok config => .listening config

/-- The route selected by the gorilla mux router of main.go.  The four
`HandleFunc` routes are method-restricted; `PathPrefix("/")` (the static
file server) matches every remaining method+path pair, so no request
reaches mux's own not-found handling. -/
inductive MuxTarget where
  | headlines
  | search
  | transform
  | health
  | fileServer
deriving DecidableEq

def muxRoute (method path : String) : MuxTarget :=
  if path = "/api/news/headlines" ∧ method = "GET" then .headlines
  else if path = "/api/news/search" ∧ method = "GET" then .search
  else if path = "/api/transform" ∧ method = "POST" then .transform
  else if path = "/health" ∧ method = "GET" then .health
  else .fileServer

/-- Prepend the CORS headers set by the middleware before the handler runs. -/
def withCORS (resp : Response) : Response :=
  { resp with headers := corsHeaders ++ resp.headers }

/-- One request through the main.go server: the CORS middleware wraps every
matched route (and every request matches, thanks to the catch-all file
route), answering OPTIONS directly with 200 and an empty body; otherwise
the mux-selected handler runs.  The static file server depends on the
`./public` directory, absent from the sources, so it is an abstract
parameter.  Returns the response, the NewsAPI URLs requested and the
OpenAI requests performed. -/
def serveMain (config : Config) (now : String)
    (newsUpstream : String → NewsUpstreamResult)
    (aiUpstream : OpenAIRequest → OpenAIUpstreamResult)
    (fileServer : Request → Response)
    (r : Request) : Response × List String × List OpenAIRequest :=
  if r.method = "OPTIONS" then
    ({ status := 200, headers := corsHeaders, body := .empty }, [], [])
  else
    match muxRoute r.method r.path with
    | .headlines =>
        let (resp, calls) := getTopHeadlines r config newsUpstream
        (withCORS resp, calls, [])
    | .search =>
        let (resp, calls) := searchNews r config newsUpstream
        (withCORS resp, calls, [])
    | .transform =>
        let (resp, calls) := transformNews r config aiUpstream
        (withCORS resp, [], calls)
    | .health =>
        (withCORS (healthCheck now), [], [])
    | .fileServer =>
        (withCORS (fileServer r), [], [])

end Main

namespace Api

/-- `type Config struct { NewsAPIKey, OpenAIAPIKey string }` (handler file: no port). -/
structure Config where
  NewsAPIKey : String
  OpenAIAPIKey : String
deriving DecidableEq

/-- `loadConfig` (handler file): both keys required, no port handling. -/
def loadConfig (env : Env) : Except String Config :=
  let newsAPIKey := osGetenv env "NEWS_API_KEY"
  if newsAPIKey = "" then
    .error "NEWS_API_KEY environment variable is required"
  else
    let openAIAPIKey := osGetenv env "OPENAI_API_KEY"
    if openAIAPIKey = "" then
      .error "OPENAI_API_KEY environment variable is required"
    else
      .ok { NewsAPIKey := newsAPIKey, OpenAIAPIKey := openAIAPIKey }

/-- The upstream URL built by `fetchNews` (handler file, line 91): same
format string as main.go. -/
def newsURL (endpoint : String) (config : Config) : String :=
  "https://newsapi.org/v2" ++ endpoint ++ "&apiKey=" ++ config.NewsAPIKey

/-- `fetchNews` (handler file): identical control flow to main.go's. -/
def fetchNews (endpoint : String) (config : Config)
    (upstream : String → NewsUpstreamResult) :
    Except String NewsResponse × List String :=
  let url := newsURL endpoint config
  match upstream url with
  | .transportError msg => (.error ("failed to fetch news: " ++ msg), [url])
  | .response status body =>
      if status = 200 then
        match body with
        | none => (.error "failed to parse JSON response", [url])
        | some n => (.ok n, [url])
      else
        (.error ("NewsAPI returned status " ++ toString status), [url])

/-- `transformContent` (handler file): build the fixed OpenAI request, POST
it, and on success return `map[string]string{"transformedContent": ...}`;
every failure becomes an `error`. -/
def transformContent (title description : String) (config : Config)
    (upstream : OpenAIRequest → OpenAIUpstreamResult) :
    Except String (List (String × String)) × List OpenAIRequest :=
  let openAIRequest := mkOpenAIRequest title description
  match upstream openAIRequest with
  | .transportError msg => (.error msg, [openAIRequest])
  | .response status body =>
      if status = 200 then
        match body with
        | none => (.error "decode error", [openAIRequest])
        | some resp =>
            match resp.Choices with
            | [] => (.error "no response from OpenAI", [openAIRequest])
            | c :: _ =>
                (.ok [("transformedContent", c.Message.Content)], [openAIRequest])
      else
        (.error ("OpenAI API returned status " ++ toString status), [openAIRequest])

/-- `handleHealth` (handler file). -/
def handleHealth (now : String) : Response :=
  { status := 200, headers := ctJSON,
    body := .objJSON
      [("status", "healthy"), ("service", "Ministry of Truth Backend"), ("time", now)] }

/-- `handleHeadlines` (handler file): same logic as main.go's `getTopHeadlines`. -/
def handleHeadlines (r : Request) (config : Config)
    (upstream : String → NewsUpstreamResult) : Response × List String :=
  let category := queryGet r.query "category"
  let endpoint :=
    if category = "" then "/top-headlines?country=us"
    else "/top-headlines?country=us&category=" ++ category
  match fetchNews endpoint config upstream with
  | (.error e, calls) =>
      ({ status := 500, headers := ctText, body := .text ("Error fetching news: " ++ e) }, calls)
  | (.ok n, calls) =>
      ({ status := 200, headers := ctJSON, body := .newsJSON n }, calls)

/-- `handleSearch` (handler file): empty or missing `q` is rejected with
400 before any upstream call. -/
def handleSearch (r : Request) (config : Config)
    (upstream : String → NewsUpstreamResult) : Response × List String :=
  let query := queryGet r.query "q"
  if query = "" then
    ({ status := 400, headers := ctText, body := .text "Query parameter \x27q\x27 is required" }, [])
  else
    let endpoint := "/everything?q=" ++ query
    match fetchNews endpoint config upstream with
    | (.error e, calls) =>
        ({ status := 500, headers := ctText, body := .text ("Error searching news: " ++ e) }, calls)
    | (.ok n, calls) =>
        ({ status := 200, headers := ctJSON, body := .newsJSON n }, calls)

/-- `handleTransform` (handler file): decode the body (400 on failure),
then `transformContent`; every transform failure becomes a single 500. -/
def handleTransform (r : Request) (config : Config)
    (upstream : OpenAIRequest → OpenAIUpstreamResult) :
    Response × List OpenAIRequest :=
  match r.body with
  | .malformed =>
      ({ status := 400, headers := ctText, body := .text "Invalid JSON" }, [])
  | .transformData title description =>
      match transformContent title description config upstream with
      | (.error _, calls) =>
          ({ status := 500, headers := ctText, body := .text "Error transforming content" }, calls)
      | (.ok fields, calls) =>
          ({ status := 200, headers := ctJSON, body := .objJSON fields }, calls)

/-- Prepend the headers already set by `setCORS` when the handler runs. -/
def withCORS (resp : Response) : Response :=
  { resp with headers := corsHeaders ++ resp.headers }

/-- `Handler` (handler file): set CORS headers; answer OPTIONS with 200 and
an empty body; load configuration PER REQUEST (500 on failure); then
dispatch on the path — note that only the transform route checks the
method, the health/headlines/search arms match on the path (or path
prefix) alone. -/
def Handler (env : Env) (now : String)
    (newsUpstream : String → NewsUpstreamResult)
    (aiUpstream : OpenAIRequest → OpenAIUpstreamResult)
    (r : Request) : Response × List String × List OpenAIRequest :=
  if r.method = "OPTIONS" then
    ({ status := 200, headers := corsHeaders, body := .empty }, [], [])
  else
    match loadConfig env with
    | .error _ =>
        ({ status := 500, headers := corsHeaders ++ ctText,
           body := .text "Server configuration error" }, [], [])
    | .ok config =>
        if r.path = "/api/health" then
          (withCORS (handleHealth now), [], [])
        else if r.path.startsWith "/api/news/headlines" then
          let (resp, calls) := handleHeadlines r config newsUpstream
          (withCORS resp, calls, [])
        else if r.path.startsWith "/api/news/search" then
          let (resp, calls) := handleSearch r config newsUpstream
          (withCORS resp, calls, [])
        else if r.path = "/api/transform" ∧ r.method = "POST" then
          let (resp, calls) := handleTransform r config aiUpstream
          (withCORS resp, [], calls)
        else
          ({ status := 404, headers := corsHeaders ++ ctText, body := .text "Not found" }, [], [])

end Api

/-- Split a character list at every occurrence of `sep` (structural
recursion, so concrete instances evaluate in the kernel). -/
def splitListChar (sep : Char) : List Char → List (List Char)
  | [] => [[]]
  | c :: cs =>
      let rest := splitListChar sep cs
      if c = sep then [] :: rest
      else
        match rest with
        | [] => [[c]]
        | r :: rs => (c :: r) :: rs

def stringSplitOn (sep : Char) (s : String) : List String :=
  ((splitListChar sep s.data).map String.mk)

/-- Decompose one `k=v` piece of a query string (the first `=`, character
code 61, separates key from value; a piece without `=` has value `""`). -/
def splitKV (piece : String) : String × String :=
  match stringSplitOn (Char.ofNat 61) piece with
  | [] => ("", "")
  | [k] => (k, "")
  | k :: vs => (k, String.intercalate (String.singleton (Char.ofNat 61)) vs)

/-- The key/value parameters a standard query-string parser reads off a
URL: everything after the first `?` (code 63), split on `&` (code 38). -/
def urlParams (url : String) : List (String × String) :=
  match stringSplitOn (Char.ofNat 63) url with
  | [] => []
  | [_] => []
  | _ :: q :: rest =>
      ((stringSplitOn (Char.ofNat 38)
        (String.intercalate (String.singleton (Char.ofNat 63)) (q :: rest))).map splitKV)

/-! ### Concrete fixtures used by witnesses and counterexamples -/

def env0 : Env := [("NEWS_API_KEY", "NKEY"), ("OPENAI_API_KEY", "OKEY")]

def cfg0 : Main.Config := { NewsAPIKey := "NKEY", OpenAIAPIKey := "OKEY", Port := "8080" }

def acfg0 : Api.Config := { NewsAPIKey := "NKEY", OpenAIAPIKey := "OKEY" }

def nr0 : NewsResponse := { Status := "ok", TotalResults := 0, Articles := [] }

/-- A news upstream that always answers with the given status and body. -/
def constNews (s : Nat) (b : Option NewsResponse) : String → NewsUpstreamResult :=
  fun _ => .response s b

/-- A completion upstream that always answers with the given status and body. -/
def constAI (s : Nat) (b : Option OpenAIResponse) : OpenAIRequest → OpenAIUpstreamResult :=
  fun _ => .response s b

/-- An upstream completion body with exactly one choice. -/
def oneChoice (role text : String) : OpenAIResponse :=
  { Choices := [{ Message := { Role := role, Content := text } }] }

/-- A GET request with the given path and query (a GET carries no decodable body). -/
def getReq (path : String) (query : List (String × String)) : Request :=
  { method := "GET", path := path, query := query, body := .malformed }

/-- A POST to the transform path with a well-formed body. -/
def transformReq (T D : String) : Request :=
  { method := "POST", path := "/api/transform", query := [], body := .transformData T D }

/-- A POST to the transform path whose body fails to decode. -/
def malformedTransformReq : Request :=
  { method := "POST", path := "/api/transform", query := [], body := .malformed }

/-! ### Helper lemmas -/

theorem string_append_assoc (a b c : String) : a ++ b ++ c = a ++ (b ++ c) := by
  cases a
  cases b
  cases c
  apply congrArg String.mk
  exact List.append_assoc _ _ _

/-! ### Claims -/

/-- C1: for every search request whose `q` query parameter is absent or
empty (Go's `Query().Get` returns `""` in both cases), both search
handlers return status 400 and request no upstream URL. -/
theorem c1_empty_query_400_no_upstream (r : Request) (cfg : Main.Config)
    (acfg : Api.Config) (nu : String → NewsUpstreamResult)
    (h : queryGet r.query "q" = "") :
    (Main.searchNews r cfg nu).1.status = 400 ∧ (Main.searchNews r cfg nu).2 = [] ∧
    (Api.handleSearch r acfg nu).1.status = 400 ∧ (Api.handleSearch r acfg nu).2 = [] := by
  simp [Main.searchNews, Api.handleSearch, h]

/-- C1 witness: a concrete search request with no query parameters. -/
theorem c1_empty_query_400_no_upstream_witness :
    (Main.searchNews (getReq "/api/news/search" []) cfg0 (constNews 200 (some nr0))).1.status = 400 ∧
    (Main.searchNews (getReq "/api/news/search" []) cfg0 (constNews 200 (some nr0))).2 = [] ∧
    (Api.handleSearch (getReq "/api/news/search" []) acfg0 (constNews 200 (some nr0))).1.status = 400 ∧
    (Api.handleSearch (getReq "/api/news/search" []) acfg0 (constNews 200 (some nr0))).2 = [] :=
  c1_empty_query_400_no_upstream (getReq "/api/news/search" []) cfg0 acfg0
    (constNews 200 (some nr0)) rfl

/-- C2: a transform request with decoded body `{title := T, description := D}`
sends exactly one upstream completion request, whose user message embeds
`T` and `D` verbatim; and when the upstream answers 200 with exactly one
choice whose message text is `X`, both transform handlers respond 200 with
body `{transformedContent := X}`. -/
theorem c2_transform_roundtrip (T D X role : String) (cfg : Main.Config)
    (acfg : Api.Config) (au : OpenAIRequest → OpenAIUpstreamResult)
    (hup : au (mkOpenAIRequest T D) = .response 200 (some (oneChoice role X))) :
    (Main.transformNews (transformReq T D) cfg au).2 = [mkOpenAIRequest T D] ∧
    (Api.handleTransform (transformReq T D) acfg au).2 = [mkOpenAIRequest T D] ∧
    (∃ m ∈ (mkOpenAIRequest T D).Messages, m.Role = "user" ∧
      m.Content = "Transform this news: Title: " ++ T ++ ", Description: " ++ D) ∧
    (Main.transformNews (transformReq T D) cfg au).1.status = 200 ∧
    (Main.transformNews (transformReq T D) cfg au).1.body =
      .objJSON [("transformedContent", X)] ∧
    (Api.handleTransform (transformReq T D) acfg au).1.status = 200 ∧
    (Api.handleTransform (transformReq T D) acfg au).1.body =
      .objJSON [("transformedContent", X)] := by
  refine ⟨?_, ?_, ?_, ?_, ?_, ?_, ?_⟩
  case refine_3 =>
    exact ⟨{ Role := "user", Content := userContent T D }, by simp [mkOpenAIRequest], rfl, rfl⟩
  all_goals
    simp [Main.transformNews, Api.handleTransform, Api.transformContent, transformReq,
      hup, oneChoice]

/-- C2 witness: concrete title, description and upstream text. -/
theorem c2_transform_roundtrip_witness :
    (Main.transformNews (transformReq "T" "D") cfg0 (constAI 200 (some (oneChoice "assistant" "X")))).2 =
      [mkOpenAIRequest "T" "D"] ∧
    (Api.handleTransform (transformReq "T" "D") acfg0 (constAI 200 (some (oneChoice "assistant" "X")))).2 =
      [mkOpenAIRequest "T" "D"] ∧
    (∃ m ∈ (mkOpenAIRequest "T" "D").Messages, m.Role = "user" ∧
      m.Content = "Transform this news: Title: " ++ "T" ++ ", Description: " ++ "D") ∧
    (Main.transformNews (transformReq "T" "D") cfg0 (constAI 200 (some (oneChoice "assistant" "X")))).1.status = 200 ∧
    (Main.transformNews (transformReq "T" "D") cfg0 (constAI 200 (some (oneChoice "assistant" "X")))).1.body =
      .objJSON [("transformedContent", "X")] ∧
    (Api.handleTransform (transformReq "T" "D") acfg0 (constAI 200 (some (oneChoice "assistant" "X")))).1.status = 200 ∧
    (Api.handleTransform (transformReq "T" "D") acfg0 (constAI 200 (some (oneChoice "assistant" "X")))).1.body =
      .objJSON [("transformedContent", "X")] :=
  c2_transform_roundtrip "T" "D" "X" "assistant" cfg0 acfg0
    (constAI 200 (some (oneChoice "assistant" "X"))) rfl

/-- C3 counterexample: when the upstream answers with status 500 — a
non-200 status — the client-facing status of the search handler is 500 as
well, so the claim "the client-facing status code is never equal to the
upstream status code" is false at this input. -/
theorem c3_upstream_status_counterexample :
    (500 ≠ 200) ∧
    (Main.searchNews (getReq "/api/news/search" [("q", "golang")]) cfg0
      (constNews 500 none)).1.status = 500 := by
  exact ⟨by decide, rfl⟩

/-- C3 amended: for every upstream call returning a non-200 status, every
proxy handler responds with the constant status 500 (a 5xx), regardless of
the upstream status; hence the upstream status is not propagated, and the
client-facing status differs from the upstream status except in the
coincidental case where the upstream itself returned 500. -/
theorem c3_upstream_non200_maps_to_500 (r : Request) (cfg : Main.Config)
    (acfg : Api.Config) (s : Nat) (b : Option NewsResponse) (ob : Option OpenAIResponse)
    (hs : s ≠ 200) :
    (queryGet r.query "q" ≠ "" → (Main.searchNews r cfg (constNews s b)).1.status = 500) ∧
    (Main.getTopHeadlines r cfg (constNews s b)).1.status = 500 ∧
    (r.method = "POST" → ∀ T D, r.body = .transformData T D →
      (Main.transformNews r cfg (constAI s ob)).1.status = 500) ∧
    (queryGet r.query "q" ≠ "" → (Api.handleSearch r acfg (constNews s b)).1.status = 500) ∧
    (Api.handleHeadlines r acfg (constNews s b)).1.status = 500 ∧
    (∀ T D, r.body = .transformData T D →
      (Api.handleTransform r acfg (constAI s ob)).1.status = 500) ∧
    (500 ≠ 200 ∧ 500 < 600 ∧ (s ≠ 500 → (500 : Nat) ≠ s)) := by
  refine ⟨?_, ?_, ?_, ?_, ?_, ?_, by decide, by decide, fun h => fun hc => h hc.symm⟩
  · intro hq
    simp [Main.searchNews, Main.fetchNews, constNews, hq, hs]
  · simp [Main.getTopHeadlines, Main.fetchNews, constNews, hs]
  · intro hm T D hb
    simp [Main.transformNews, constAI, hm, hb, hs]
  · intro hq
    simp [Api.handleSearch, Api.fetchNews, constNews, hq, hs]
  · simp [Api.handleHeadlines, Api.fetchNews, constNews, hs]
  · intro T D hb
    simp [Api.handleTransform, Api.transformContent, constAI, hb, hs]

/-- C3 witness: the amended theorem at a concrete request and upstream
status 404. -/
theorem c3_upstream_non200_maps_to_500_witness :
    (Main.getTopHeadlines (getReq "/api/news/headlines" []) cfg0
      (constNews 404 none)).1.status = 500 ∧
    (Main.searchNews (getReq "/api/news/search" [("q", "golang")]) cfg0
      (constNews 404 none)).1.status = 500 :=
  ⟨(c3_upstream_non200_maps_to_500 (getReq "/api/news/headlines" []) cfg0 acfg0
      404 none none (by decide)).2.1,
   (c3_upstream_non200_maps_to_500 (getReq "/api/news/search" [("q", "golang")]) cfg0 acfg0
      404 none none (by decide)).1 (by decide)⟩

/-- C4 counterexample: with both credentials absent from the environment,
the serverless `Handler` still accepts and answers a request — a GET to
the health path receives a 500 "Server configuration error" response —
so configuration is validated lazily, per request, and the claim that the
server never accepts connections is false for this entry point. -/
theorem c4_lazy_config_counterexample :
    (Api.Handler [] "2025-10-11T00:00:00Z" (constNews 200 (some nr0))
      (constAI 200 (some (oneChoice "assistant" "X")))
      (getReq "/api/health" [])).1.status = 500 ∧
    (Api.Handler [] "2025-10-11T00:00:00Z" (constNews 200 (some nr0))
      (constAI 200 (some (oneChoice "assistant" "X")))
      (getReq "/api/health" [])).1.body = .text "Server configuration error" := by
  exact ⟨rfl, rfl⟩

/-- C4 amended: in main.go, a missing credential makes `loadConfig` fail
and `main` exit before the server ever listens (fail-fast); the serverless
`Handler` variant instead loads configuration on every request, so with a
missing credential it still serves requests, answering every non-OPTIONS
request with a 500 configuration error (and making no upstream call). -/
theorem c4_fail_fast_main_lazy_handler (env : Env)
    (h : osGetenv env "NEWS_API_KEY" = "" ∨ osGetenv env "OPENAI_API_KEY" = "") :
    (∃ msg, Main.mainStartup env = .exited msg) ∧
    (∀ now nu au r, r.method ≠ "OPTIONS" →
      (Api.Handler env now nu au r).1.status = 500 ∧
      (Api.Handler env now nu au r).2.1 = [] ∧
      (Api.Handler env now nu au r).2.2 = []) := by
  have hcfg : ∃ e, Api.loadConfig env = .error e := by
    rcases h with h1 | h2
    · exact ⟨"NEWS_API_KEY environment variable is required", by simp [Api.loadConfig, h1]⟩
    · by_cases hn : osGetenv env "NEWS_API_KEY" = ""
      · exact ⟨"NEWS_API_KEY environment variable is required", by simp [Api.loadConfig, hn]⟩
      · exact ⟨"OPENAI_API_KEY environment variable is required",
          by simp [Api.loadConfig, hn, h2]⟩
  have hmain : ∃ msg, Main.mainStartup env = .exited msg := by
    rcases h with h1 | h2
    · exact ⟨"Failed to load configuration: NEWS_API_KEY environment variable is required",
        by simp [Main.mainStartup, Main.loadConfig, h1]⟩
    · by_cases hn : osGetenv env "NEWS_API_KEY" = ""
      · exact ⟨"Failed to load configuration: NEWS_API_KEY environment variable is required",
          by simp [Main.mainStartup, Main.loadConfig, hn]⟩
      · exact ⟨"Failed to load configuration: OPENAI_API_KEY environment variable is required",
          by simp [Main.mainStartup, Main.loadConfig, hn, h2]⟩
  refine ⟨hmain, ?_⟩
  intro now nu au r hm
  obtain ⟨e, he⟩ := hcfg
  refine ⟨?_, ?_, ?_⟩ <;> simp [Api.Handler, hm, he]

/-- C4 witness: the amended theorem at an environment missing the news
credential and a concrete health request. -/
theorem c4_fail_fast_main_lazy_handler_witness :
    (∃ msg, Main.mainStartup [("OPENAI_API_KEY", "OKEY")] = .exited msg) ∧
    (Api.Handler [("OPENAI_API_KEY", "OKEY")] "t" (constNews 200 (some nr0))
      (constAI 200 (some (oneChoice "assistant" "X"))) (getReq "/api/health" [])).1.status = 500 :=
  ⟨(c4_fail_fast_main_lazy_handler [("OPENAI_API_KEY", "OKEY")] (Or.inl rfl)).1,
   ((c4_fail_fast_main_lazy_handler [("OPENAI_API_KEY", "OKEY")] (Or.inl rfl)).2
      "t" (constNews 200 (some nr0)) (constAI 200 (some (oneChoice "assistant" "X")))
      (getReq "/api/health" []) (by decide)).1⟩

/-- C5 counterexample: a POST to the health path matches none of the four
defined routes (the health route is GET-only) and is not OPTIONS, yet the
serverless `Handler` dispatches on the path alone and returns 200 with the
health body, not 404. -/
theorem c5_method_ignored_counterexample :
    (Api.Handler env0 "t" (constNews 200 (some nr0))
      (constAI 200 (some (oneChoice "assistant" "X")))
      { method := "POST", path := "/api/health", query := [], body := .malformed }).1.status = 200 ∧
    (Api.Handler env0 "t" (constNews 200 (some nr0))
      (constAI 200 (some (oneChoice "assistant" "X")))
      { method := "POST", path := "/api/health", query := [], body := .malformed }).1.body =
      .objJSON [("status", "healthy"), ("service", "Ministry of Truth Backend"), ("time", "t")] := by
  exact ⟨rfl, rfl⟩

/-- C5 amended: the serverless `Handler` checks the method only on the
transform route: a non-OPTIONS request whose path is not the health path,
does not begin with the headlines or search path, and is not a POST to the
transform path, gets 404 with no upstream call (so in particular a non-POST
request to the transform path gets 404) — but a non-GET request to the
health, headlines or search paths runs the corresponding handler instead of
yielding 404.  In main.go, a method+path pair matching none of the four
mux routes falls through to the static file server rather than a plain 404. -/
theorem c5_unrouted_requests (env : Env) (now : String)
    (nu : String → NewsUpstreamResult) (au : OpenAIRequest → OpenAIUpstreamResult)
    (r : Request)
    (hk1 : osGetenv env "NEWS_API_KEY" ≠ "") (hk2 : osGetenv env "OPENAI_API_KEY" ≠ "")
    (hm : r.method ≠ "OPTIONS")
    (hp1 : r.path ≠ "/api/health")
    (hp2 : r.path.startsWith "/api/news/headlines" = false)
    (hp3 : r.path.startsWith "/api/news/search" = false)
    (hp4 : ¬(r.path = "/api/transform" ∧ r.method = "POST")) :
    (Api.Handler env now nu au r).1.status = 404 ∧
    (Api.Handler env now nu au r).2.1 = [] ∧
    (Api.Handler env now nu au r).2.2 = [] ∧
    (¬(r.path = "/api/news/headlines" ∧ r.method = "GET") →
     ¬(r.path = "/api/news/search" ∧ r.method = "GET") →
     ¬(r.path = "/health" ∧ r.method = "GET") →
      Main.muxRoute r.method r.path = .fileServer) := by
  refine ⟨?_, ?_, ?_, ?_⟩
  · simp [Api.Handler, Api.loadConfig, hk1, hk2, hm, hp1, hp2, hp3, hp4]
  · simp [Api.Handler, Api.loadConfig, hk1, hk2, hm, hp1, hp2, hp3, hp4]
  · simp [Api.Handler, Api.loadConfig, hk1, hk2, hm, hp1, hp2, hp3, hp4]
  · intro h1 h2 h3
    simp [Main.muxRoute, h1, h2, h3, hp4]

/-- C5 witness: a GET to the transform path (wrong method for the only
method-checked route) gets 404 from the Handler and falls to the file
server in main.go's router. -/
theorem c5_unrouted_requests_witness :
    (Api.Handler env0 "t" (constNews 200 (some nr0))
      (constAI 200 (some (oneChoice "assistant" "X")))
      (getReq "/api/transform" [])).1.status = 404 ∧
    Main.muxRoute "GET" "/api/transform" = .fileServer :=
  ⟨(c5_unrouted_requests env0 "t" (constNews 200 (some nr0))
      (constAI 200 (some (oneChoice "assistant" "X"))) (getReq "/api/transform" [])
      (by decide) (by decide) (by decide) (by decide) (by decide) (by decide) (by decide)).1,
   (c5_unrouted_requests env0 "t" (constNews 200 (some nr0))
      (constAI 200 (some (oneChoice "assistant" "X"))) (getReq "/api/transform" [])
      (by decide) (by decide) (by decide) (by decide) (by decide) (by decide) (by decide)).2.2.2
      (by decide) (by decide) (by decide)⟩

/-- C6: every OPTIONS request — to any path, routable or not, and under
any environment and upstreams — is answered by both entry points with
status 200, an empty body, the three permissive CORS headers, and no
upstream call (the short-circuit precedes routing, config loading and all
handler logic). -/
theorem c6_options_shortcircuit (env : Env) (cfg : Main.Config) (now : String)
    (nu : String → NewsUpstreamResult) (au : OpenAIRequest → OpenAIUpstreamResult)
    (fs : Request → Response) (r : Request) (h : r.method = "OPTIONS") :
    Main.serveMain cfg now nu au fs r =
      ({ status := 200, headers := corsHeaders, body := .empty }, [], []) ∧
    Api.Handler env now nu au r =
      ({ status := 200, headers := corsHeaders, body := .empty }, [], []) ∧
    ("Access-Control-Allow-Origin", "*") ∈ corsHeaders ∧
    ("Access-Control-Allow-Methods", "GET, POST, PUT, DELETE, OPTIONS") ∈ corsHeaders ∧
    ("Access-Control-Allow-Headers", "Content-Type, Authorization") ∈ corsHeaders := by
  refine ⟨?_, ?_, by simp [corsHeaders], by simp [corsHeaders], by simp [corsHeaders]⟩
  · simp [Main.serveMain, h]
  · simp [Api.Handler, h]

/-- C6 witness: an OPTIONS request to an unroutable path, with an empty
environment (the short-circuit fires even before configuration loading). -/
theorem c6_options_shortcircuit_witness :
    Main.serveMain cfg0 "t" (constNews 200 (some nr0))
      (constAI 200 (some (oneChoice "assistant" "X"))) (fun _ => Main.healthCheck "t")
      { method := "OPTIONS", path := "/no/such/route", query := [], body := .malformed } =
      ({ status := 200, headers := corsHeaders, body := .empty }, [], []) ∧
    Api.Handler [] "t" (constNews 200 (some nr0))
      (constAI 200 (some (oneChoice "assistant" "X")))
      { method := "OPTIONS", path := "/no/such/route", query := [], body := .malformed } =
      ({ status := 200, headers := corsHeaders, body := .empty }, [], []) :=
  ⟨(c6_options_shortcircuit [] cfg0 "t" (constNews 200 (some nr0))
      (constAI 200 (some (oneChoice "assistant" "X"))) (fun _ => Main.healthCheck "t")
      { method := "OPTIONS", path := "/no/such/route", query := [], body := .malformed } rfl).1,
   (c6_options_shortcircuit [] cfg0 "t" (constNews 200 (some nr0))
      (constAI 200 (some (oneChoice "assistant" "X"))) (fun _ => Main.healthCheck "t")
      { method := "OPTIONS", path := "/no/such/route", query := [], body := .malformed } rfl).2.1⟩

theorem transformNews_calls (r : Request) (cfg : Main.Config)
    (au : OpenAIRequest → OpenAIUpstreamResult)
    (hpost : r.method = "POST") (T D : String) (hb : r.body = .transformData T D) :
    (Main.transformNews r cfg au).2 = [mkOpenAIRequest T D] := by
  rcases hau : au (mkOpenAIRequest T D) with ⟨msg⟩ | ⟨s, ob⟩
  · simp [Main.transformNews, hpost, hb, hau]
  · rcases ob with _ | resp
    · by_cases hs : s = 200 <;> simp [Main.transformNews, hpost, hb, hau, hs]
    · rcases hc : resp.Choices with _ | ⟨c, cs⟩ <;> by_cases hs : s = 200 <;>
        simp [Main.transformNews, hpost, hb, hau, hs, hc]

theorem handleTransform_calls (r : Request) (acfg : Api.Config)
    (au : OpenAIRequest → OpenAIUpstreamResult)
    (T D : String) (hb : r.body = .transformData T D) :
    (Api.handleTransform r acfg au).2 = [mkOpenAIRequest T D] := by
  rcases hau : au (mkOpenAIRequest T D) with ⟨msg⟩ | ⟨s, ob⟩
  · simp [Api.handleTransform, Api.transformContent, hb, hau]
  · rcases ob with _ | resp
    · by_cases hs : s = 200 <;> simp [Api.handleTransform, Api.transformContent, hb, hau, hs]
    · rcases hc : resp.Choices with _ | ⟨c, cs⟩ <;> by_cases hs : s = 200 <;>
        simp [Api.handleTransform, Api.transformContent, hb, hau, hs, hc]

/-- C7: a transform request whose body fails to decode (missing body or
malformed JSON) is rejected with 400 and no upstream call, in both
variants; a well-formed body — including empty title and/or description —
is never rejected: exactly one upstream request is sent and its user
message embeds the title and description strings as-is. -/
theorem c7_transform_body_validation (r : Request) (cfg : Main.Config)
    (acfg : Api.Config) (au : OpenAIRequest → OpenAIUpstreamResult)
    (hpost : r.method = "POST") :
    (r.body = .malformed →
      (Main.transformNews r cfg au).1.status = 400 ∧ (Main.transformNews r cfg au).2 = [] ∧
      (Api.handleTransform r acfg au).1.status = 400 ∧ (Api.handleTransform r acfg au).2 = []) ∧
    (∀ T D, r.body = .transformData T D →
      (Main.transformNews r cfg au).2 = [mkOpenAIRequest T D] ∧
      (Api.handleTransform r acfg au).2 = [mkOpenAIRequest T D] ∧
      ∃ m ∈ (mkOpenAIRequest T D).Messages, m.Role = "user" ∧
        m.Content = "Transform this news: Title: " ++ T ++ ", Description: " ++ D) := by
  constructor
  · intro hb
    refine ⟨?_, ?_, ?_, ?_⟩ <;> simp [Main.transformNews, Api.handleTransform, hpost, hb]
  · intro T D hb
    exact ⟨transformNews_calls r cfg au hpost T D hb,
           handleTransform_calls r acfg au T D hb,
           ⟨{ Role := "user", Content := userContent T D }, by simp [mkOpenAIRequest], rfl, rfl⟩⟩

/-- C7 witness: a malformed body is rejected with 400; an empty title and
description are passed through into the upstream request. -/
theorem c7_transform_body_validation_witness :
    (Main.transformNews malformedTransformReq cfg0
      (constAI 200 (some (oneChoice "assistant" "X")))).1.status = 400 ∧
    (Main.transformNews (transformReq "" "") cfg0
      (constAI 200 (some (oneChoice "assistant" "X")))).2 = [mkOpenAIRequest "" ""] :=
  ⟨((c7_transform_body_validation malformedTransformReq cfg0 acfg0
      (constAI 200 (some (oneChoice "assistant" "X"))) rfl).1 rfl).1,
   ((c7_transform_body_validation (transformReq "" "") cfg0 acfg0
      (constAI 200 (some (oneChoice "assistant" "X"))) rfl).2 "" "" rfl).1⟩

/-- C8: whenever the news upstream answers 200 with a body that parses as
the expected shape `n` — whatever its field contents — the headlines and
search handlers of both variants answer 200 with exactly that shape
re-encoded as the response body (pass-through, no transformation and no
validation). -/
theorem c8_success_passthrough (r : Request) (cfg : Main.Config)
    (acfg : Api.Config) (n : NewsResponse) :
    (Main.getTopHeadlines r cfg (constNews 200 (some n))).1 =
      { status := 200, headers := ctJSON, body := .newsJSON n } ∧
    (Api.handleHeadlines r acfg (constNews 200 (some n))).1 =
      { status := 200, headers := ctJSON, body := .newsJSON n } ∧
    (queryGet r.query "q" ≠ "" →
      (Main.searchNews r cfg (constNews 200 (some n))).1 =
        { status := 200, headers := ctJSON, body := .newsJSON n } ∧
      (Api.handleSearch r acfg (constNews 200 (some n))).1 =
        { status := 200, headers := ctJSON, body := .newsJSON n }) := by
  refine ⟨?_, ?_, fun hq => ⟨?_, ?_⟩⟩ <;>
    simp [Main.getTopHeadlines, Api.handleHeadlines, Main.searchNews, Api.handleSearch,
      Main.fetchNews, Api.fetchNews, constNews, *]

/-- C8 witness: concrete headline and search requests, with an upstream
body whose `Status` field is not even "ok" (contents are not validated). -/
theorem c8_success_passthrough_witness :
    (Main.getTopHeadlines (getReq "/api/news/headlines" [("category", "technology")]) cfg0
      (constNews 200 (some { Status := "error", TotalResults := -5, Articles := [] }))).1 =
      { status := 200, headers := ctJSON,
        body := .newsJSON { Status := "error", TotalResults := -5, Articles := [] } } ∧
    (Main.searchNews (getReq "/api/news/search" [("q", "golang")]) cfg0
      (constNews 200 (some { Status := "error", TotalResults := -5, Articles := [] }))).1 =
      { status := 200, headers := ctJSON,
        body := .newsJSON { Status := "error", TotalResults := -5, Articles := [] } } :=
  ⟨(c8_success_passthrough (getReq "/api/news/headlines" [("category", "technology")]) cfg0 acfg0
      { Status := "error", TotalResults := -5, Articles := [] }).1,
   ((c8_success_passthrough (getReq "/api/news/search" [("q", "golang")]) cfg0 acfg0
      { Status := "error", TotalResults := -5, Articles := [] }).2.2 (by decide)).1⟩

/-- C9: every request reaching the health route — GET `/health` in main.go,
any non-OPTIONS request to `/api/health` in the serverless variant (with
credentials present) — is answered with status 200 and a JSON body whose
`status` field is `"healthy"`, together with a service-name field and a
timestamp field, and no upstream call is made. -/
theorem c9_health_route (cfg : Main.Config) (env : Env) (now : String)
    (nu : String → NewsUpstreamResult) (au : OpenAIRequest → OpenAIUpstreamResult)
    (fs : Request → Response) (r r2 : Request)
    (h1 : r.method = "GET") (h2 : r.path = "/health")
    (h3 : r2.path = "/api/health") (h4 : r2.method ≠ "OPTIONS")
    (hk1 : osGetenv env "NEWS_API_KEY" ≠ "") (hk2 : osGetenv env "OPENAI_API_KEY" ≠ "") :
    (Main.serveMain cfg now nu au fs r).1.status = 200 ∧
    (Main.serveMain cfg now nu au fs r).1.body =
      .objJSON [("status", "healthy"), ("service", "Ministry of Truth Backend"), ("time", now)] ∧
    (Main.serveMain cfg now nu au fs r).2.1 = [] ∧
    (Main.serveMain cfg now nu au fs r).2.2 = [] ∧
    (Api.Handler env now nu au r2).1.status = 200 ∧
    (Api.Handler env now nu au r2).1.body =
      .objJSON [("status", "healthy"), ("service", "Ministry of Truth Backend"), ("time", now)] ∧
    (Api.Handler env now nu au r2).2.1 = [] ∧
    (Api.Handler env now nu au r2).2.2 = [] := by
  have hopt : r.method ≠ "OPTIONS" := by rw [h1]; decide
  refine ⟨?_, ?_, ?_, ?_, ?_, ?_, ?_, ?_⟩ <;>
    simp [Main.serveMain, Main.muxRoute, Main.healthCheck, Main.withCORS,
      Api.Handler, Api.loadConfig, Api.handleHealth, Api.withCORS,
      h1, h2, h3, h4, hopt, hk1, hk2]

/-- C9 witness: concrete health requests against both entry points. -/
theorem c9_health_route_witness :
    (Main.serveMain cfg0 "2025-10-11T00:00:00Z" (constNews 200 (some nr0))
      (constAI 200 (some (oneChoice "assistant" "X"))) (fun _ => Main.healthCheck "fs")
      (getReq "/health" [])).1.status = 200 ∧
    (Api.Handler env0 "2025-10-11T00:00:00Z" (constNews 200 (some nr0))
      (constAI 200 (some (oneChoice "assistant" "X")))
      (getReq "/api/health" [])).1.body =
      .objJSON [("status", "healthy"), ("service", "Ministry of Truth Backend"),
                ("time", "2025-10-11T00:00:00Z")] :=
  ⟨(c9_health_route cfg0 env0 "2025-10-11T00:00:00Z" (constNews 200 (some nr0))
      (constAI 200 (some (oneChoice "assistant" "X"))) (fun _ => Main.healthCheck "fs")
      (getReq "/health" []) (getReq "/api/health" [])
      rfl rfl rfl (by decide) (by decide) (by decide)).1,
   (c9_health_route cfg0 env0 "2025-10-11T00:00:00Z" (constNews 200 (some nr0))
      (constAI 200 (some (oneChoice "assistant" "X"))) (fun _ => Main.healthCheck "fs")
      (getReq "/health" []) (getReq "/api/health" [])
      rfl rfl rfl (by decide) (by decide) (by decide)).2.2.2.2.2.1⟩

/-- C10: for every non-empty query `q` (and category `c`), the upstream
URL is the bare character-for-character concatenation of the fixed prefix,
the raw parameter value and the `&apiKey=` suffix — no percent-encoding —
in both variants; the search handler requests exactly that URL; and a `q`
containing `&` and `=` injects extra parameters into the upstream request:
a standard query-string parse of the URL built for
`q = "bitcoin&apiKey=evil"` yields an injected `apiKey=evil` parameter
ahead of the server's own key. -/
theorem c10_raw_url_concatenation (q c : String) (cfg : Main.Config)
    (acfg : Api.Config) (nu : String → NewsUpstreamResult)
    (hq : q ≠ "") (hc : c ≠ "") :
    Main.newsURL ("/everything?q=" ++ q) cfg =
      "https://newsapi.org/v2/everything?q=" ++ q ++ "&apiKey=" ++ cfg.NewsAPIKey ∧
    Api.newsURL ("/everything?q=" ++ q) acfg =
      "https://newsapi.org/v2/everything?q=" ++ q ++ "&apiKey=" ++ acfg.NewsAPIKey ∧
    Main.newsURL ("/top-headlines?country=us&category=" ++ c) cfg =
      "https://newsapi.org/v2/top-headlines?country=us&category=" ++ c ++
        "&apiKey=" ++ cfg.NewsAPIKey ∧
    (Main.searchNews (getReq "/api/news/search" [("q", q)]) cfg nu).2 =
      ["https://newsapi.org/v2/everything?q=" ++ q ++ "&apiKey=" ++ cfg.NewsAPIKey] ∧
    urlParams (Main.newsURL ("/everything?q=" ++ "bitcoin&apiKey=evil") cfg0) =
      [("q", "bitcoin"), ("apiKey", "evil"), ("apiKey", "NKEY")] := by
  have hflat : ∀ a : String,
      "https://newsapi.org/v2" ++ ("/everything?q=" ++ q) ++ "&apiKey=" ++ a =
        "https://newsapi.org/v2/everything?q=" ++ q ++ "&apiKey=" ++ a := by
    intro a
    rw [← string_append_assoc "https://newsapi.org/v2" "/everything?q=" q]
    rfl
  have hflatc :
      "https://newsapi.org/v2" ++ ("/top-headlines?country=us&category=" ++ c) ++
        "&apiKey=" ++ cfg.NewsAPIKey =
      "https://newsapi.org/v2/top-headlines?country=us&category=" ++ c ++
        "&apiKey=" ++ cfg.NewsAPIKey := by
    rw [← string_append_assoc "https://newsapi.org/v2" "/top-headlines?country=us&category=" c]
    rfl
  have hqg : queryGet [("q", q)] "q" = q := by simp [queryGet]
  have hlog : (Main.searchNews (getReq "/api/news/search" [("q", q)]) cfg nu).2 =
      [Main.newsURL ("/everything?q=" ++ q) cfg] := by
    rcases hr : nu (Main.newsURL ("/everything?q=" ++ q) cfg) with ⟨msg⟩ | ⟨s, b⟩
    · simp [Main.searchNews, Main.fetchNews, getReq, hqg, hq, hr]
    · rcases b with _ | n <;> by_cases hs : s = 200 <;>
        simp [Main.searchNews, Main.fetchNews, getReq, hqg, hq, hr, hs]
  refine ⟨hflat cfg.NewsAPIKey, hflat acfg.NewsAPIKey, hflatc, ?_, by decide⟩
  rw [hlog]
  simp only [Main.newsURL]
  rw [hflat cfg.NewsAPIKey]

/-- C10 witness: a concrete non-empty query and category. -/
theorem c10_raw_url_concatenation_witness :
    Main.newsURL ("/everything?q=" ++ "golang") cfg0 =
      "https://newsapi.org/v2/everything?q=" ++ "golang" ++ "&apiKey=" ++ cfg0.NewsAPIKey ∧
    urlParams (Main.newsURL ("/everything?q=" ++ "bitcoin&apiKey=evil") cfg0) =
      [("q", "bitcoin"), ("apiKey", "evil"), ("apiKey", "NKEY")] :=
  ⟨(c10_raw_url_concatenation "golang" "technology" cfg0 acfg0
      (constNews 200 (some nr0)) (by decide) (by decide)).1,
   (c10_raw_url_concatenation "golang" "technology" cfg0 acfg0
      (constNews 200 (some nr0)) (by decide) (by decide)).2.2.2.2⟩

end MinistryOfTruth
